import Mathlib

/-!
Shallow embedding of the two persistence adapters of readium-lcp-server:
the content index (src/index/index.go) and the license store
(src/license/store.go).  SQL statement texts are embedded verbatim; the
behaviour of each prepared statement is given as a pure function over an
explicit table state (a list of rows), and the open-time effects of
`Open` / `NewSqlStore` are given as a list of database events.
-/

set_option autoImplicit false

namespace ReadiumLcp

/-! ### Character-level string utilities (kernel reducible) -/

/-- If `p` is a prefix of `l`, the remainder of `l` after `p`. -/
def stripSeq : List Char → List Char → Option (List Char)
  | [], rest => some rest
  | _ :: _, [] => none
  | p :: ps, c :: cs => if p = c then stripSeq ps cs else none

/-- Whether string `s` starts with string `p`. -/
def strStarts (p s : String) : Bool := (stripSeq p.data s.data).isSome

/-- Go `strings.HasPrefix(s, p)`. -/
def goHasPrefix (s p : String) : Bool := (stripSeq p.data s.data).isSome

/-- Split at the first occurrence of `sep`: the text before it and after it. -/
def splitFirst (sep : List Char) : List Char → Option (List Char × List Char)
  | [] => none
  | c :: cs =>
    match stripSeq sep (c :: cs) with
    | some rest => some ([], rest)
    | none =>
      match splitFirst sep cs with
      | some (l, r) => some (c :: l, r)
      | none => none

/-- Split on every comma. -/
def splitOnComma : List Char → List (List Char)
  | [] => [[]]
  | c :: cs =>
    if c = ',' then [] :: splitOnComma cs
    else
      match splitOnComma cs with
      | [] => [[c]]
      | g :: gs => (c :: g) :: gs

/-- Drop whitespace at both ends. -/
def trimChars (cs : List Char) : List Char :=
  ((cs.dropWhile Char.isWhitespace).reverse.dropWhile Char.isWhitespace).reverse

/-- Replace every whitespace character (tab, newline, ...) by a plain space. -/
def normalizeWs (cs : List Char) : List Char :=
  cs.map fun c => if c.isWhitespace then ' ' else c

def isIdentChar (c : Char) : Bool := c.isAlphanum || c = '_'

/-- A nonempty SQL identifier: letters, digits and underscores only. -/
def identOk (cs : List Char) : Bool := !cs.isEmpty && cs.all isIdentChar

/-- A positional parameter placeholder: `?` (mysql/sqlite) or `$n` (postgres). -/
def placeholderOk : List Char → Bool
  | ['?'] => true
  | '$' :: ds => !ds.isEmpty && ds.all Char.isDigit
  | _ => false

/-! ### A small checker for SQL UPDATE statements -/

/-- The parsed shape of `UPDATE <table> SET <assignments> WHERE <condition>`. -/
structure UpdateShape where
  table : List Char
  assigns : List (List Char)
  cond : List Char
deriving DecidableEq, Repr

/-- Split an UPDATE statement into table name, comma-separated SET items and
the WHERE condition (whitespace normalized, items trimmed). -/
def parseUpdateShape (q : String) : Option UpdateShape :=
  let cs := normalizeWs q.data
  match stripSeq ("UPDATE ".data) cs with
  | none => none
  | some rest =>
    match splitFirst (" SET ".data) rest with
    | none => none
    | some (tbl, rest2) =>
      match splitFirst (" WHERE ".data) rest2 with
      | none => none
      | some (assigns, cond) =>
        some { table := trimChars tbl
               assigns := (splitOnComma assigns).map trimChars
               cond := trimChars cond }

/-- A single SET item or WHERE condition of the form `column = placeholder`. -/
def assignOk (item : List Char) : Bool :=
  match splitFirst (['=']) item with
  | some (lhs, rhs) =>
    !(rhs.contains '=') && identOk (trimChars lhs) && placeholderOk (trimChars rhs)
  | none => false

/-- The column name on the left of a SET item. -/
def assignCol (item : List Char) : List Char :=
  match splitFirst (['=']) item with
  | some (lhs, _) => trimChars lhs
  | none => []

/-- The statement parses as `UPDATE table SET col=ph, ... WHERE col=ph`:
a well-formed, executable parameterized UPDATE. -/
def wellFormedUpdate (q : String) : Bool :=
  match parseUpdateShape q with
  | none => false
  | some u => identOk u.table && u.assigns.all assignOk && assignOk u.cond

/-- The columns assigned by the SET clause, in order. -/
def updateSetCols (q : String) : Option (List (List Char)) :=
  (parseUpdateShape q).map fun u => u.assigns.map assignCol

/-! ### The SQL texts of src/index/index.go (function Open) -/

namespace index

def tableDef : String :=
  "CREATE TABLE IF NOT EXISTS content (id varchar(255) PRIMARY KEY,encryption_key varchar(64) NOT NULL,location text NOT NULL,length bigint,sha256 varchar(64),\"type\" varchar(256) NOT NULL default 'application/epub+zip')"

def tableDefPostgres : String :=
  "CREATE TABLE IF NOT EXISTS content (id varchar(255) PRIMARY KEY,encryption_key bytea NOT NULL,location text NOT NULL,length bigint,sha256 varchar(64),\"type\" varchar(256) NOT NULL default 'application/epub+zip')"

def getQueryPostgres : String :=
  "SELECT id,encryption_key,location,length,sha256,type FROM content WHERE id = $1 LIMIT 1"

def addQueryPostgres : String :=
  "INSERT INTO content (id,encryption_key,location,length,sha256,type) VALUES ($1, $2, $3, $4, $5, $6)"

def updateQueryPostgres : String :=
  "UPDATE content SET encryption_key=$1, location=$2, length=$3, sha256=$4, type=$5 WHERE id=$6"

def listQueryPostgres : String :=
  "SELECT id,encryption_key,location,length,sha256,type FROM content"

def getQueryOther : String :=
  "SELECT id,encryption_key,location,length,sha256,type FROM content WHERE id = ? LIMIT 1"

def addQueryOther : String :=
  "INSERT INTO content (id,encryption_key,location,length,sha256,type) VALUES (?, ?, ?, ?, ?, ?)"

def updateQueryOther : String :=
  "UPDATE content SET encryption_key=?, location=?, length=?, sha256=?, type=? WHERE id=?"

def listQueryOther : String :=
  "SELECT id,encryption_key,location,length,sha256,type FROM content"

def alterAddTypeColumn : String :=
  "ALTER TABLE content ADD COLUMN \"type\" varchar(255) NOT NULL DEFAULT 'application/epub+zip'"

end index

/-! ### The SQL texts of src/license/store.go (function NewSqlStore) -/

namespace license

def tableDef : String :=
  "CREATE TABLE IF NOT EXISTS license (id varchar(255) PRIMARY KEY,user_id varchar(255) NOT NULL,provider varchar(255) NOT NULL,issued datetime NOT NULL,updated datetime DEFAULT NULL,rights_print int(11) DEFAULT NULL,rights_copy int(11) DEFAULT NULL,rights_start datetime DEFAULT NULL,rights_end datetime DEFAULT NULL,content_fk varchar(255) NOT NULL,lsd_status integer default 0,FOREIGN KEY(content_fk) REFERENCES content(id))"

def tableDefPostgers : String :=
  "CREATE TABLE IF NOT EXISTS license (id VARCHAR(255) PRIMARY KEY,user_id VARCHAR(255) NOT NULL,provider VARCHAR(255) NOT NULL,issued TIMESTAMPTZ NOT NULL,updated TIMESTAMPTZ DEFAULT NULL,rights_print INT DEFAULT NULL,rights_copy INT DEFAULT NULL,rights_start TIMESTAMPTZ DEFAULT NULL,rights_end TIMESTAMPTZ DEFAULT NULL,content_fk VARCHAR(255) NOT NULL,lsd_status INT default 0,FOREIGN KEY(content_fk) REFERENCES content(id))"

def listallqueryPostgres : String :=
  "SELECT id, user_id, provider, issued, updated,\n\t\t\trights_print, rights_copy, rights_start, rights_end, content_fk\n\t\t\tFROM license\n\t\t\tORDER BY issued desc LIMIT $1 OFFSET $2"

def listqueryPostgres : String :=
  "SELECT id, user_id, provider, issued, updated,\n\t\t\trights_print, rights_copy, rights_start, rights_end, content_fk\n\t\t\tFROM license\n\t\t\tWHERE content_fk=$1 LIMIT $2 OFFSET $3"

def updaterightsqueryPostgres : String :=
  "UPDATE license SET rights_print=$1, rights_copy=$2, rights_start=$3, rights_end=$4, updated=$5 WHERE id=$6"

def addqueryPostgres : String :=
  "INSERT INTO license (id, user_id, provider, issued, updated,\n\t\t\trights_print, rights_copy, rights_start, rights_end, content_fk) \n\t\t\tVALUES ($1, $2, $3, $4, $5, $6, $7, $8, $9, $10)"

def updatequeryPostgres : String :=
  "UPDATE license SET user_id=$1, provider=$2, updated=$3,\n\t\t\trights_print=$4, rights_copy=$5, rights_start=$6, rights_end=$7, content_fk =$8\n\t\t\tWHERE id=$9"

def updatelsdstatusqueryPostgres : String :=
  "UPDATE license SET lsd_status =$1 WHERE id=$2"

def getqueryPostgres : String :=
  "SELECT id, user_id, provider, issued, updated, rights_print, rights_copy,\n\t\t\trights_start, rights_end, content_fk FROM license\n\t\t\twhere id = $1"

def listallqueryOther : String :=
  "SELECT id, user_id, provider, issued, updated,\n\t\t\trights_print, rights_copy, rights_start, rights_end, content_fk\n\t\t\tFROM license\n\t\t\tORDER BY issued desc LIMIT ? OFFSET ?"

def listqueryOther : String :=
  "SELECT id, user_id, provider, issued, updated,\n\t\t\trights_print, rights_copy, rights_start, rights_end, content_fk\n\t\t\tFROM license\n\t\t\tWHERE content_fk=? LIMIT ? OFFSET ?"

/-- Verbatim from the source, typo included: the SET clause ends
`rights_end=?,u pdated=?`. -/
def updaterightsqueryOther : String :=
  "UPDATE license SET rights_print=?, rights_copy=?, rights_start=?, rights_end=?,u pdated=? WHERE id=?"

def addqueryOther : String :=
  "INSERT INTO license (id, user_id, provider, issued, updated,\n\t\t\trights_print, rights_copy, rights_start, rights_end, content_fk) \n\t\t\tVALUES (?, ?, ?, ?, ?, ?, ?, ?, ?, ?)"

def updatequeryOther : String :=
  "UPDATE license SET user_id=?, provider=?, updated=?,\n\t\t\trights_print=?, rights_copy=?, rights_start=?, rights_end=?, content_fk =?\n\t\t\tWHERE id=?"

def updatelsdstatusqueryOther : String :=
  "UPDATE license SET lsd_status =? WHERE id=?"

def getqueryOther : String :=
  "SELECT id, user_id, provider, issued, updated, rights_print, rights_copy,\n\t\t\trights_start, rights_end, content_fk FROM license\n\t\t\twhere id = ?"

end license

/-! ### Open-time database events

`Open` and `NewSqlStore` act on the injected handle in a fixed order:
some `db.Exec` calls, then the `db.Prepare` calls.  The order of events is
recorded so that "before preparing any statement" can be stated. -/

inductive DbEvent where
  | exec (q : String)
  | prep (q : String)
deriving DecidableEq, Repr

def DbEvent.isExec : DbEvent → Bool
  | .exec _ => true
  | .prep _ => false

def DbEvent.execText : DbEvent → Option String
  | .exec q => some q
  | .prep _ => none

/-- The statements executed before the first statement is prepared. -/
def execsBeforeFirstPrep (evs : List DbEvent) : List String :=
  (evs.takeWhile DbEvent.isExec).filterMap DbEvent.execText

def isCreateTableIfNotExists (q : String) : Bool :=
  strStarts "CREATE TABLE IF NOT EXISTS " q

/-- The component issues an idempotent create-table statement before
preparing any statement. -/
def opensWithCreateTable (evs : List DbEvent) : Bool :=
  (execsBeforeFirstPrep evs).any isCreateTableIfNotExists

namespace index

/-- The five query texts `Open` selects from the configuration string
(`config.Config.LcpServer.Database`). -/
structure OpenQueries where
  createTableQuery : String
  getQuery : String
  addQuery : String
  updateQuery : String
  listQuery : String
deriving DecidableEq, Repr

def openQueries (cfg : String) : OpenQueries :=
  if goHasPrefix cfg "postgres" then
    { createTableQuery := tableDefPostgres
      getQuery := getQueryPostgres
      addQuery := addQueryPostgres
      updateQuery := updateQueryPostgres
      listQuery := listQueryPostgres }
  else
    { createTableQuery := tableDef
      getQuery := getQueryOther
      addQuery := addQueryOther
      updateQuery := updateQueryOther
      listQuery := listQueryOther }

/-- The database events of `Open` in source order: exec the create-table
statement, if sqlite exec the column-add migration (error ignored), then
prepare the four statements. -/
def OpenEvents (cfg : String) : List DbEvent :=
  [DbEvent.exec (openQueries cfg).createTableQuery]
    ++ (if goHasPrefix cfg "sqlite" then [DbEvent.exec alterAddTypeColumn] else [])
    ++ [DbEvent.prep (openQueries cfg).getQuery,
        DbEvent.prep (openQueries cfg).addQuery,
        DbEvent.prep (openQueries cfg).updateQuery,
        DbEvent.prep (openQueries cfg).listQuery]

end index

namespace license

/-- The eight query texts `NewSqlStore` selects from the configuration. -/
structure StoreQueries where
  tabledefquery : String
  listallquery : String
  listquery : String
  updaterightsquery : String
  addquery : String
  updatequery : String
  updatelsdstatusquery : String
  getquery : String
deriving DecidableEq, Repr

def storeQueries (cfg : String) : StoreQueries :=
  if goHasPrefix cfg "postgres" then
    { tabledefquery := tableDefPostgers
      listallquery := listallqueryPostgres
      listquery := listqueryPostgres
      updaterightsquery := updaterightsqueryPostgres
      addquery := addqueryPostgres
      updatequery := updatequeryPostgres
      updatelsdstatusquery := updatelsdstatusqueryPostgres
      getquery := getqueryPostgres }
  else
    { tabledefquery := tableDef
      listallquery := listallqueryOther
      listquery := listqueryOther
      updaterightsquery := updaterightsqueryOther
      addquery := addqueryOther
      updatequery := updatequeryOther
      updatelsdstatusquery := updatelsdstatusqueryOther
      getquery := getqueryOther }

/-- The database events of `NewSqlStore` in source order: only when the
configuration names sqlite or postgres, exec the create-table statement;
then prepare the seven statements. -/
def NewSqlStoreEvents (cfg : String) : List DbEvent :=
  (if goHasPrefix cfg "sqlite" || goHasPrefix cfg "postgres" then
      [DbEvent.exec (storeQueries cfg).tabledefquery]
    else [])
    ++ [DbEvent.prep (storeQueries cfg).listallquery,
        DbEvent.prep (storeQueries cfg).listquery,
        DbEvent.prep (storeQueries cfg).updaterightsquery,
        DbEvent.prep (storeQueries cfg).addquery,
        DbEvent.prep (storeQueries cfg).updatequery,
        DbEvent.prep (storeQueries cfg).updatelsdstatusquery,
        DbEvent.prep (storeQueries cfg).getquery]

end license

/-! ### Data model -/

/-- A Go `time.Time` instant: seconds and nanoseconds since the epoch plus
the location used for display.  `UTC()` changes only the location;
`Truncate(time.Second)` discards the sub-second part (nanoseconds are kept
in `[0, 1e9)`). -/
structure GoTime where
  sec : Int
  nsec : Int
  loc : String
deriving DecidableEq, Repr

def GoTime.utc (t : GoTime) : GoTime := { t with loc := "UTC" }

def GoTime.truncSec (t : GoTime) : GoTime := { t with nsec := 0 }

/-- Go's zero `time.Time` (location nil renders as UTC). -/
def GoTime.zero : GoTime := { sec := 0, nsec := 0, loc := "UTC" }

/-- `t` is strictly before `u`. -/
def GoTime.before (t u : GoTime) : Bool :=
  decide (t.sec < u.sec) || (t.sec == u.sec && decide (t.nsec < u.nsec))

/-- The errors this layer surfaces: the distinguished not-found values
(`errors.New` in each package) and opaque database/driver errors. -/
inductive GoErr where
  | notFound (msg : String)
  | dbErr (msg : String)
deriving DecidableEq, Repr

namespace index

/-- `var NotFound = errors.New("Content not found")`. -/
def NotFound : GoErr := GoErr.notFound "Content not found"

/-- The `Content` struct of index.go.  The Go field `Type` is spelled
`Type_` (Lean keyword); `EncryptionKey` is a byte slice. -/
structure Content where
  Id : String
  EncryptionKey : List Nat
  Location : String
  Length : Int
  Sha256 : String
  Type_ : String
deriving DecidableEq, Repr

/-- Go's zero value `Content{}`. -/
def emptyContent : Content :=
  { Id := "", EncryptionKey := [], Location := "", Length := 0, Sha256 := "", Type_ := "" }

/-- `Get`: the row selected by `WHERE id = ? LIMIT 1`; scanning the columns
back into a `Content`; no row yields `NotFound`. -/
def Get (db : List Content) (id : String) : Except GoErr Content :=
  match (db.filter fun c => c.Id == id).head? with
  | some c => Except.ok c
  | none => Except.error NotFound

/-- `Add`: INSERT of all six columns.  The `id` column is the primary key
(tableDef), so the database rejects a duplicate identifier; that
constraint violation is surfaced as an opaque error. -/
def Add (db : List Content) (c : Content) : List Content × Option GoErr :=
  if (db.filter fun x => x.Id == c.Id).isEmpty then (db ++ [c], none)
  else (db, some (GoErr.dbErr "UNIQUE constraint failed: content.id"))

/-- The row transform of the UPDATE statement: sets the five mutable
columns, keyed on `id`. -/
def updateRow (c : Content) (r : Content) : Content :=
  { r with EncryptionKey := c.EncryptionKey, Location := c.Location,
           Length := c.Length, Sha256 := c.Sha256, Type_ := c.Type_ }

/-- `Update`: executes the UPDATE; no affected-row check, so no error when
zero rows match. -/
def Update (db : List Content) (c : Content) : List Content × Option GoErr :=
  (db.map fun r => if r.Id == c.Id then updateRow c r else r, none)

end index

namespace license

/-- `var NotFound = errors.New("License not found")`. -/
def NotFound : GoErr := GoErr.notFound "License not found"

/-- Modelled from the spec: the user sub-structure of a license record
(struct declared in license.go, outside src/; its `Id` field is fixed by
the `l.User.Id` uses in store.go). -/
structure UserInfo where
  Id : String
deriving DecidableEq, Repr

/-- Modelled from the spec: the rights sub-structure — print count, copy
count, validity start, validity end, all nullable (struct declared in
license.go, outside src/; fields fixed by the store.go uses). -/
structure UserRights where
  Print : Option Int
  Copy : Option Int
  Start : Option GoTime
  End : Option GoTime
deriving DecidableEq, Repr

/-- Modelled from the spec: the license record (struct declared in
license.go, outside src/; the field set is fixed by the Exec/Scan calls
in store.go). -/
structure License where
  Id : String
  User : UserInfo
  Provider : String
  Issued : GoTime
  Updated : Option GoTime
  Rights : UserRights
  ContentId : String
deriving DecidableEq, Repr

/-- Modelled from the spec: the record shape List/ListAll yield; same
fields as `License` (struct declared in license.go, outside src/). -/
structure LicenseReport where
  Id : String
  User : UserInfo
  Provider : String
  Issued : GoTime
  Updated : Option GoTime
  Rights : UserRights
  ContentId : String
deriving DecidableEq, Repr

/-- The zero `LicenseReport` the generator bodies build (`var l
LicenseReport; l.User = UserInfo{}; l.Rights = new(UserRights)`). -/
def emptyLicenseReport : LicenseReport :=
  { Id := "", User := { Id := "" }, Provider := "", Issued := GoTime.zero,
    Updated := none,
    Rights := { Print := none, Copy := none, Start := none, End := none },
    ContentId := "" }

/-- A row of the license table, columns as in tableDef. -/
structure LicenseRow where
  id : String
  user_id : String
  provider : String
  issued : GoTime
  updated : Option GoTime
  rights_print : Option Int
  rights_copy : Option Int
  rights_start : Option GoTime
  rights_end : Option GoTime
  content_fk : String
  lsd_status : Int
deriving DecidableEq, Repr

/-- The Scan of `Get`: the ten selected columns into a `License`. -/
def scanLicense (r : LicenseRow) : License :=
  { Id := r.id, User := { Id := r.user_id }, Provider := r.provider,
    Issued := r.issued, Updated := r.updated,
    Rights := { Print := r.rights_print, Copy := r.rights_copy,
                Start := r.rights_start, End := r.rights_end },
    ContentId := r.content_fk }

/-- The Scan of `List`/`ListAll`: the ten selected columns into a
`LicenseReport`. -/
def scanLicenseReport (r : LicenseRow) : LicenseReport :=
  { Id := r.id, User := { Id := r.user_id }, Provider := r.provider,
    Issued := r.issued, Updated := r.updated,
    Rights := { Print := r.rights_print, Copy := r.rights_copy,
                Start := r.rights_start, End := r.rights_end },
    ContentId := r.content_fk }

/-- `Get`: `QueryRow(id).Scan(...)`; `sql.ErrNoRows` (no matching row) is
translated to `NotFound`, any other error passes unchanged. -/
def Get (db : List LicenseRow) (id : String) : Except GoErr License :=
  match (db.filter fun r => r.id == id).head? with
  | some r => Except.ok (scanLicense r)
  | none => Except.error NotFound

/-- The row `Add` inserts: `Exec(l.Id, l.User.Id, l.Provider, l.Issued,
nil, l.Rights.Print, l.Rights.Copy, l.Rights.Start, l.Rights.End,
l.ContentId)` — the `updated` column is explicitly nil and `lsd_status`
takes its column default 0. -/
def addRow (l : License) : LicenseRow :=
  { id := l.Id, user_id := l.User.Id, provider := l.Provider,
    issued := l.Issued, updated := none,
    rights_print := l.Rights.Print, rights_copy := l.Rights.Copy,
    rights_start := l.Rights.Start, rights_end := l.Rights.End,
    content_fk := l.ContentId, lsd_status := 0 }

/-- `Add`: INSERT; the primary key on `id` makes the database reject a
duplicate identifier, surfaced as an opaque error. -/
def Add (db : List LicenseRow) (l : License) : List LicenseRow × Option GoErr :=
  if (db.filter fun r => r.id == l.Id).isEmpty then (db ++ [addRow l], none)
  else (db, some (GoErr.dbErr "UNIQUE constraint failed: license.id"))

/-- The row transform of the update-rights UPDATE: the four rights columns
plus `updated := time.Now().UTC().Truncate(time.Second)`. -/
def updateRightsRow (now : GoTime) (l : License) (r : LicenseRow) : LicenseRow :=
  { r with rights_print := l.Rights.Print, rights_copy := l.Rights.Copy,
           rights_start := l.Rights.Start, rights_end := l.Rights.End,
           updated := some ((GoTime.utc now).truncSec) }

/-- `UpdateRights`: executes the UPDATE keyed on `id`, then checks
`RowsAffected`; zero affected rows yields `NotFound`. -/
def UpdateRights (db : List LicenseRow) (now : GoTime) (l : License) :
    List LicenseRow × Option GoErr :=
  let db2 := db.map fun r => if r.id == l.Id then updateRightsRow now l r else r
  if (db.filter fun r => r.id == l.Id).length == 0 then (db2, some NotFound)
  else (db2, none)

/-- The row transform of the general UPDATE: user, provider, stamped
`updated`, the four rights columns and the content reference. -/
def updateRow (now : GoTime) (l : License) (r : LicenseRow) : LicenseRow :=
  { r with user_id := l.User.Id, provider := l.Provider,
           updated := some ((GoTime.utc now).truncSec),
           rights_print := l.Rights.Print, rights_copy := l.Rights.Copy,
           rights_start := l.Rights.Start, rights_end := l.Rights.End,
           content_fk := l.ContentId }

/-- `Update`: executes the UPDATE; no affected-row check. -/
def Update (db : List LicenseRow) (now : GoTime) (l : License) :
    List LicenseRow × Option GoErr :=
  (db.map fun r => if r.id == l.Id then updateRow now l r else r, none)

/-- The row transform of the lsd-status UPDATE: only the `lsd_status`
column. -/
def lsdStatusRow (status : Int) (r : LicenseRow) : LicenseRow :=
  { r with lsd_status := status }

/-- `UpdateLsdStatus`: executes the UPDATE; no affected-row check. -/
def UpdateLsdStatus (db : List LicenseRow) (id : String) (status : Int) :
    List LicenseRow × Option GoErr :=
  (db.map fun r => if r.id == id then lsdStatusRow status r else r, none)

/-- Insert into a list kept sorted by `issued` descending. -/
def insertIssuedDesc (r : LicenseRow) : List LicenseRow → List LicenseRow
  | [] => [r]
  | x :: xs =>
    if GoTime.before x.issued r.issued then r :: x :: xs
    else x :: insertIssuedDesc r xs

/-- `ORDER BY issued desc` (stable). -/
def sortIssuedDesc : List LicenseRow → List LicenseRow
  | [] => []
  | r :: rs => insertIssuedDesc r (sortIssuedDesc rs)

/-- Semantics of listallquery: order by `issued` descending, then apply
OFFSET and LIMIT. -/
def listallQueryRows (db : List LicenseRow) (limit offset : Int) : List LicenseRow :=
  ((sortIssuedDesc db).drop offset.toNat).take limit.toNat

/-- Semantics of listquery: filter on `content_fk`, then apply OFFSET and
LIMIT (no ORDER BY: database default order). -/
def listQueryRows (db : List LicenseRow) (contentFk : String) (limit offset : Int) :
    List LicenseRow :=
  ((db.filter fun r => r.content_fk == contentFk).drop offset.toNat).take limit.toNat

/-- `ListAll(page, pageNum)` runs `listall.Query(page, pageNum*page)`:
the first argument binds LIMIT, the second binds OFFSET. -/
def ListAll (db : List LicenseRow) (page pageNum : Int) : List LicenseRow :=
  listallQueryRows db page (pageNum * page)

/-- `List(contentID, page, pageNum)` runs
`list.Query(contentID, page, pageNum*page)` (Go name `List`). -/
def List_ (db : List LicenseRow) (contentID : String) (page pageNum : Int) :
    List LicenseRow :=
  listQueryRows db contentID page (pageNum * page)

end license

/-! ### The list-generator pattern

`List`/`ListAll` run the query once and return a closure over the cursor.
A failed query is captured and returned on every call; otherwise each call
either scans the next row, or — once the rows are exhausted — closes the
cursor and yields the component's `NotFound` as the end marker. -/

/-- The open cursor the closure captures: the rows not yet consumed, and
whether `Close` has been called. -/
structure RowsCursor (ρ : Type) where
  pending : List ρ
  closed : Bool
deriving DecidableEq, Repr

/-- The closure's captured state: either the error of the initial query
or the live cursor. -/
inductive GenState (ρ : Type) where
  | failed (e : GoErr)
  | cursor (rc : RowsCursor ρ)
deriving DecidableEq, Repr

/-- What the constructor captures: the query's error, or its rows with the
cursor open. -/
def genStart {ρ : Type} (qres : Except GoErr (List ρ)) : GenState ρ :=
  match qres with
  | Except.error e => GenState.failed e
  | Except.ok rows => GenState.cursor { pending := rows, closed := false }

/-- One call of the returned function.  `scan` maps a row to the yielded
record, `zero` is the record's zero value, `nf` the component's
`NotFound`. -/
def genNext {ρ β : Type} (scan : ρ → β) (zero : β) (nf : GoErr) :
    GenState ρ → (β × Option GoErr) × GenState ρ
  | GenState.failed e => ((zero, some e), GenState.failed e)
  | GenState.cursor rc =>
    match rc.pending with
    | r :: rest => ((scan r, none), GenState.cursor { pending := rest, closed := rc.closed })
    | [] => ((zero, some nf), GenState.cursor { pending := [], closed := true })

/-- `n` successive calls: the outputs in order and the final state. -/
def runGen {ρ β : Type} (scan : ρ → β) (zero : β) (nf : GoErr) :
    GenState ρ → Nat → List (β × Option GoErr) × GenState ρ
  | st, 0 => ([], st)
  | st, n + 1 =>
    ((genNext scan zero nf st).1
        :: (runGen scan zero nf (genNext scan zero nf st).2 n).1,
     (runGen scan zero nf (genNext scan zero nf st).2 n).2)

/-! ### External JSON encoding of a content record -/

inductive JsonVal where
  | str (s : String)
  | num (n : Int)
deriving DecidableEq, Repr

/-- The JSON object `encoding/json` produces for a `Content`, from the
struct tags in index.go: `id`, `location`, `length`, `sha256`, `type`;
the `EncryptionKey` field is tagged `json:"-"` and never emitted. -/
def contentJSON (c : index.Content) : List (String × JsonVal) :=
  [("id", JsonVal.str c.Id),
   ("location", JsonVal.str c.Location),
   ("length", JsonVal.num c.Length),
   ("sha256", JsonVal.str c.Sha256),
   ("type", JsonVal.str c.Type_)]

/-! ### Sample records (used by witnesses) -/

def sampleContent : index.Content :=
  { Id := "c1", EncryptionKey := [1, 2, 3], Location := "fs://c1.epub",
    Length := 42, Sha256 := "abc", Type_ := "application/epub+zip" }

def sampleLicense : license.License :=
  { Id := "l1", User := { Id := "u1" }, Provider := "prov",
    Issued := { sec := 100, nsec := 5, loc := "UTC" },
    Updated := some { sec := 200, nsec := 0, loc := "UTC" },
    Rights := { Print := some 3, Copy := some 10,
                Start := some { sec := 1, nsec := 0, loc := "UTC" }, End := none },
    ContentId := "c1" }

/-! ### Helper lemmas -/

theorem map_if_of_filter_eq_nil {α : Type} (p : α → Bool) (f : α → α) (l : List α)
    (h : l.filter p = []) : (l.map fun r => if p r then f r else r) = l := by
  induction l with
  | nil => rfl
  | cons a as ih =>
    rw [List.filter_cons] at h
    cases hpa : p a with
    | true => rw [hpa] at h; simp at h
    | false =>
      rw [hpa] at h
      simp only [Bool.false_eq_true, if_false] at h
      simp [hpa, ih h]

theorem runGen_exhaust {ρ β : Type} (scan : ρ → β) (zero : β) (nf : GoErr)
    (rows : List ρ) :
    runGen scan zero nf (GenState.cursor { pending := rows, closed := false })
        (rows.length + 1)
      = ((rows.map fun r => (scan r, none)) ++ [(zero, some nf)],
         GenState.cursor { pending := [], closed := true }) := by
  induction rows with
  | nil => rfl
  | cons r rest ih =>
    show ((scan r, none)
            :: (runGen scan zero nf
                  (GenState.cursor { pending := rest, closed := false })
                  (rest.length + 1)).1,
          (runGen scan zero nf (GenState.cursor { pending := rest, closed := false })
              (rest.length + 1)).2)
        = _
    rw [ih]
    rfl

theorem runGen_failed {ρ β : Type} (scan : ρ → β) (zero : β) (nf : GoErr)
    (e : GoErr) (n : Nat) :
    runGen scan zero nf (GenState.failed e) n
      = (List.replicate n (zero, some e), GenState.failed e) := by
  induction n with
  | zero => rfl
  | succ m ih =>
    show ((zero, some e) :: (runGen scan zero nf (GenState.failed e) m).1,
          (runGen scan zero nf (GenState.failed e) m).2)
        = (List.replicate (m + 1) (zero, some e), GenState.failed e)
    rw [ih, List.replicate_succ]

/-! ### The claims -/

/-- C1: the claim that the postgres-dialect and non-postgres-dialect
prepared statements are behaviourally equivalent — in particular that both
dialects yield a well-formed, executable UPDATE for UpdateRights — fails:
the non-postgres updaterightsquery contains `rights_end=?,u pdated=?`, a
malformed SET clause, so it does not parse as an UPDATE statement, while
the postgres one does.  The other three UPDATE statement pairs are
well-formed in both dialects and assign the same columns. -/
theorem C1_updaterights_dialect_divergence :
    wellFormedUpdate license.updaterightsqueryPostgres = true
    ∧ wellFormedUpdate license.updaterightsqueryOther = false
    ∧ updateSetCols license.updaterightsqueryPostgres
        = some ["rights_print".data, "rights_copy".data, "rights_start".data,
                "rights_end".data, "updated".data]
    ∧ wellFormedUpdate license.updatequeryPostgres = true
    ∧ wellFormedUpdate license.updatequeryOther = true
    ∧ updateSetCols license.updatequeryPostgres = updateSetCols license.updatequeryOther
    ∧ wellFormedUpdate license.updatelsdstatusqueryPostgres = true
    ∧ wellFormedUpdate license.updatelsdstatusqueryOther = true
    ∧ updateSetCols license.updatelsdstatusqueryPostgres
        = updateSetCols license.updatelsdstatusqueryOther
    ∧ wellFormedUpdate index.updateQueryPostgres = true
    ∧ wellFormedUpdate index.updateQueryOther = true
    ∧ updateSetCols index.updateQueryPostgres = updateSetCols index.updateQueryOther := by
  decide

/-- C2 (amended): the content index issues an idempotent
"create table if not exists" statement before preparing any statement for
every configuration value; the license store does so exactly when the
configuration has prefix "sqlite" or "postgres" — under any other
configuration it executes nothing before preparing. -/
theorem C2_create_table_on_open (cfg : String) :
    opensWithCreateTable (index.OpenEvents cfg) = true
    ∧ opensWithCreateTable (license.NewSqlStoreEvents cfg)
        = (goHasPrefix cfg "sqlite" || goHasPrefix cfg "postgres") := by
  cases hp : goHasPrefix cfg "postgres" <;> cases hs : goHasPrefix cfg "sqlite" <;>
    refine ⟨?_, ?_⟩ <;>
      simp only [index.OpenEvents, index.openQueries,
        license.NewSqlStoreEvents, license.storeQueries, hp, hs] <;>
      decide

/-- C2 counterexample: under the configuration value "mysql" the license
store issues no create-table statement (indeed no statement at all) before
preparing, so the claim "for every configuration value ... NewSqlStore
issues a create-table statement" is false. -/
theorem C2_counterexample_mysql :
    opensWithCreateTable (license.NewSqlStoreEvents "mysql") = false := by
  decide

/-- C3: ListAll and List execute with SQL LIMIT equal to the first
argument (page size) and OFFSET equal to pageNum × page; hence
ListAll(10, 0) is at most the 10 most recently issued rows and
ListAll(10, 1) the next 10. -/
theorem C3_pagination (db : List license.LicenseRow) (cid : String)
    (page pageNum : Int) :
    license.ListAll db page pageNum
        = ((license.sortIssuedDesc db).drop (pageNum * page).toNat).take page.toNat
    ∧ license.List_ db cid page pageNum
        = ((db.filter fun r => r.content_fk == cid).drop (pageNum * page).toNat).take
            page.toNat
    ∧ license.ListAll db 10 0 = (license.sortIssuedDesc db).take 10
    ∧ license.ListAll db 10 1 = ((license.sortIssuedDesc db).drop 10).take 10
    ∧ (license.ListAll db 10 0).length ≤ 10 := by
  have h0 : ((0 : Int) * 10).toNat = 0 := by decide
  have h1 : ((1 : Int) * 10).toNat = 10 := by decide
  have h10 : ((10 : Int)).toNat = 10 := by decide
  refine ⟨rfl, rfl, ?_, ?_, ?_⟩
  · show license.listallQueryRows db 10 (0 * 10) = _
    simp [license.listallQueryRows, h0, h10]
  · show license.listallQueryRows db 10 (1 * 10) = _
    simp [license.listallQueryRows, h1, h10]
  · show (license.listallQueryRows db 10 (0 * 10)).length ≤ 10
    simp only [license.listallQueryRows, h0, h10, List.drop_zero, List.length_take]
    exact min_le_left _ _

/-- C4: for an id matching no row, Get of either component returns the
distinguished not-found error, never a generic database error. -/
theorem C4_get_notfound (cdb : List index.Content) (ldb : List license.LicenseRow)
    (id : String)
    (hc : (cdb.filter fun c => c.Id == id) = [])
    (hl : (ldb.filter fun r => r.id == id) = []) :
    index.Get cdb id = Except.error index.NotFound
    ∧ license.Get ldb id = Except.error license.NotFound := by
  unfold index.Get license.Get
  rw [hc, hl]
  exact ⟨rfl, rfl⟩

/-- Witness for C4 at a concrete input: empty tables, id "missing". -/
theorem C4_witness :
    index.Get [] "missing" = Except.error index.NotFound
    ∧ license.Get [] "missing" = Except.error license.NotFound :=
  C4_get_notfound [] [] "missing" rfl rfl

/-- C5: UpdateRights returns not-found exactly when zero rows match the
license id and no error otherwise, while Update and UpdateLsdStatus return
no error even with zero matching rows and leave the table unchanged in
that case. -/
theorem C5_affected_row_checks (db : List license.LicenseRow) (now : GoTime)
    (l : license.License) (st : Int) :
    ((license.UpdateRights db now l).2
        = if (db.filter fun r => r.id == l.Id) = [] then some license.NotFound else none)
    ∧ (license.Update db now l).2 = none
    ∧ (license.UpdateLsdStatus db l.Id st).2 = none
    ∧ ((db.filter fun r => r.id == l.Id) = [] →
        (license.Update db now l).1 = db
        ∧ (license.UpdateLsdStatus db l.Id st).1 = db
        ∧ (license.UpdateRights db now l).1 = db) := by
  refine ⟨?_, rfl, rfl, fun h => ⟨?_, ?_, ?_⟩⟩
  · by_cases hf : (db.filter fun r => r.id == l.Id) = []
    · simp [license.UpdateRights, hf]
    · have : (db.filter fun r => r.id == l.Id).length ≠ 0 := by
        simpa [List.length_eq_zero] using hf
      simp [license.UpdateRights, hf, this]
  · exact map_if_of_filter_eq_nil _ _ db h
  · exact map_if_of_filter_eq_nil _ _ db h
  · unfold license.UpdateRights
    rw [h]
    simpa using
      map_if_of_filter_eq_nil (fun r => r.id == l.Id)
        (license.updateRightsRow now l) db h

/-- C6: Add stores the updated column as null regardless of the record's
fields; Update and UpdateRights stamp it with the current time converted
to UTC and truncated to whole seconds; UpdateLsdStatus writes only the
lsd_status column, every other column (the timestamp included) unchanged. -/
theorem C6_updated_column (l : license.License) (now : GoTime) (st : Int)
    (r : license.LicenseRow) :
    (license.addRow l).updated = none
    ∧ (license.updateRow now l r).updated = some ((GoTime.utc now).truncSec)
    ∧ (license.updateRightsRow now l r).updated = some ((GoTime.utc now).truncSec)
    ∧ ((GoTime.utc now).truncSec).nsec = 0
    ∧ ((GoTime.utc now).truncSec).loc = "UTC"
    ∧ (license.lsdStatusRow st r).lsd_status = st
    ∧ (license.lsdStatusRow st r).updated = r.updated
    ∧ (license.lsdStatusRow st r).id = r.id
    ∧ (license.lsdStatusRow st r).user_id = r.user_id
    ∧ (license.lsdStatusRow st r).provider = r.provider
    ∧ (license.lsdStatusRow st r).issued = r.issued
    ∧ (license.lsdStatusRow st r).rights_print = r.rights_print
    ∧ (license.lsdStatusRow st r).rights_copy = r.rights_copy
    ∧ (license.lsdStatusRow st r).rights_start = r.rights_start
    ∧ (license.lsdStatusRow st r).rights_end = r.rights_end
    ∧ (license.lsdStatusRow st r).content_fk = r.content_fk :=
  ⟨rfl, rfl, rfl, rfl, rfl, rfl, rfl, rfl, rfl, rfl, rfl, rfl, rfl, rfl, rfl, rfl⟩

/-- C7: Add followed by Get round-trips every field Add writes: for the
content index the whole record, for the license store the id, user id,
provider, issued timestamp, the four rights fields and the content
reference (the updated column is stored as null by Add). -/
theorem C7_add_get_roundtrip (cdb : List index.Content) (c : index.Content)
    (ldb : List license.LicenseRow) (l : license.License)
    (hc : (cdb.filter fun x => x.Id == c.Id) = [])
    (hl : (ldb.filter fun r => r.id == l.Id) = []) :
    index.Get (index.Add cdb c).1 c.Id = Except.ok c
    ∧ license.Get (license.Add ldb l).1 l.Id
        = Except.ok { Id := l.Id, User := l.User, Provider := l.Provider,
                      Issued := l.Issued, Updated := none, Rights := l.Rights,
                      ContentId := l.ContentId } := by
  constructor
  · simp [index.Add, hc, index.Get, List.filter_append]
  · simp [license.Add, hl, license.Get, List.filter_append, license.addRow,
      license.scanLicense]

/-- Witness for C7 at a concrete input: empty tables and sample records. -/
theorem C7_witness :
    index.Get (index.Add [] sampleContent).1 sampleContent.Id = Except.ok sampleContent
    ∧ license.Get (license.Add [] sampleLicense).1 sampleLicense.Id
        = Except.ok { Id := sampleLicense.Id, User := sampleLicense.User,
                      Provider := sampleLicense.Provider,
                      Issued := sampleLicense.Issued, Updated := none,
                      Rights := sampleLicense.Rights,
                      ContentId := sampleLicense.ContentId } :=
  C7_add_get_roundtrip [] sampleContent [] sampleLicense rfl rfl

/-- C8: a successfully started List/ListAll generator yields the rows in
order and the first call after the last record closes the cursor and
returns the not-found error as the end marker, for both components. -/
theorem C8_generator_exhaustion (rows : List index.Content)
    (lrows : List license.LicenseRow) :
    runGen (fun c : index.Content => c) index.emptyContent index.NotFound
        (genStart (Except.ok rows)) (rows.length + 1)
      = ((rows.map fun r => (r, none)) ++ [(index.emptyContent, some index.NotFound)],
         GenState.cursor { pending := [], closed := true })
    ∧ runGen license.scanLicenseReport license.emptyLicenseReport license.NotFound
        (genStart (Except.ok lrows)) (lrows.length + 1)
      = ((lrows.map fun r => (license.scanLicenseReport r, none))
            ++ [(license.emptyLicenseReport, some license.NotFound)],
         GenState.cursor { pending := [], closed := true }) := by
  constructor
  · simpa [genStart] using
      runGen_exhaust (fun c : index.Content => c) index.emptyContent index.NotFound rows
  · simpa [genStart] using
      runGen_exhaust license.scanLicenseReport license.emptyLicenseReport
        license.NotFound lrows

/-- C9: the external JSON encoding of a content record is independent of
the encryption key — two records differing only in that field encode
identically — and exposes exactly id, location, length, sha256 and type. -/
theorem C9_encryption_key_never_encoded (c : index.Content) (k : List Nat) :
    contentJSON { c with EncryptionKey := k } = contentJSON c
    ∧ (contentJSON c).map Prod.fst = ["id", "location", "length", "sha256", "type"] :=
  ⟨rfl, rfl⟩

/-- C10: when the initial query fails, the generator returns that same
database error (with the zero record) on every call — never the not-found
signal and never a record — for both components. -/
theorem C10_failed_query_generator (m : String) (n : Nat) :
    runGen (fun c : index.Content => c) index.emptyContent index.NotFound
        (genStart (Except.error (GoErr.dbErr m))) n
      = (List.replicate n (index.emptyContent, some (GoErr.dbErr m)),
         GenState.failed (GoErr.dbErr m))
    ∧ runGen license.scanLicenseReport license.emptyLicenseReport license.NotFound
        (genStart (Except.error (GoErr.dbErr m))) n
      = (List.replicate n (license.emptyLicenseReport, some (GoErr.dbErr m)),
         GenState.failed (GoErr.dbErr m))
    ∧ GoErr.dbErr m ≠ index.NotFound
    ∧ GoErr.dbErr m ≠ license.NotFound := by
  refine ⟨?_, ?_, ?_, ?_⟩
  · exact runGen_failed _ _ _ _ n
  · exact runGen_failed _ _ _ _ n
  · intro h; simp [index.NotFound] at h
  · intro h; simp [license.NotFound] at h

end ReadiumLcp
